import Mathlib

/-!
Verification of the voice-quality analysis pipeline
(`src/infra/modal/voice_analysis.py`) of the nanobot repository.

Python floats are modelled by exact rationals (`ℚ`); float literals such
as `45.0 / 70.0`, `0.30`, `1e-10` become the exact rationals `45/70`,
`30/100`, `1/10^10`.  Python's `int(...)` conversion (truncation toward
zero) is `pytrunc`; `np.clip(x, lo, hi)` is `clip`.  External library
calls (librosa's harmonic/percussive separation, `log10`) are passed in
as explicit arguments, so every theorem quantifies over them.
-/

namespace VoiceAnalysis

/-- `np.clip(x, lo, hi)`: numpy applies the lower bound first, then the
upper bound (`min (max x lo) hi`). -/
def clip (x lo hi : ℚ) : ℚ := min (max x lo) hi

/-- Python's `int(...)` on a float: truncation toward zero. -/
def pytrunc (q : ℚ) : ℤ := if q < 0 then ⌈q⌉ else ⌊q⌋

/-- The "boost" remap from `compute_scores`
(`voice_analysis.py:313-315`):
`int(np.clip(55 + (score - 30) * (45.0 / 70.0), 55, 100))`. -/
def boost (score : ℚ) : ℤ := pytrunc (clip (55 + (score - 30) * (45 / 70)) 55 100)

/-- `classify_voice_type` (`voice_analysis.py:55-76`).  The
`pitch_range` argument is present in the source signature but never read
in the body. -/
def classify_voice_type (pitch_mean_hz : ℚ) (pitch_range : ℚ × ℚ) : String :=
  if pitch_mean_hz ≤ 0 then "unknown"
  else if pitch_mean_hz > 165 then
    if pitch_mean_hz > 250 then "soprano"
    else if pitch_mean_hz > 200 then "mezzo-soprano"
    else "contralto"
  else
    if pitch_mean_hz > 140 then "tenor"
    else if pitch_mean_hz > 100 then "baritone"
    else "bass"

/-- The `analysis` dict handed to `compute_scores` (produced by
`analyze_with_parselmouth`).  `compute_scores` reads four keys through
`dict.get` with defaults, so the fields are optional here. -/
structure AnalysisDict where
  jitter_percent : Option ℚ
  shimmer_percent : Option ℚ
  pitch_max_hz : Option ℚ
  pitch_min_hz : Option ℚ

/-- The six-field score dict returned by `compute_scores`. -/
structure ScoreVector where
  clarity : ℤ
  stability : ℤ
  warmth : ℤ
  expressiveness : ℤ
  listenability : ℤ
  overall : ℤ

/-- `compute_scores` (`voice_analysis.py:255-324`), with Python float
constants `0.6`, `0.4`, `0.5`, `3.0`, `10.0`, `0.30`, … taken as exact
rationals. -/
def compute_scores (analysis : AnalysisDict)
    (snr spectral_flatness spectral_centroid harmonic_ratio dynamic_range : ℚ) :
    ScoreVector :=
  let snr_score := clip (snr / 40 * 100) 0 100
  let flatness_score := clip ((1 - spectral_flatness * 10) * 100) 0 100
  let clarity := pytrunc (clip (snr_score * (6 / 10) + flatness_score * (4 / 10)) 30 100)
  let jitter := analysis.jitter_percent.getD 2
  let shimmer := analysis.shimmer_percent.getD 5
  let jitter_score := clip ((1 - jitter / 3) * 100) 0 100
  let shimmer_score := clip ((1 - shimmer / 10) * 100) 0 100
  let stability := pytrunc (clip (jitter_score * (5 / 10) + shimmer_score * (5 / 10)) 25 100)
  let centroid_ideal : ℚ := 2000
  let centroid_diff := |spectral_centroid - centroid_ideal|
  let centroid_score := clip ((1 - centroid_diff / 3000) * 100) 0 100
  let harmonic_score := clip (harmonic_ratio / 25 * 100) 0 100
  let warmth := pytrunc (clip (centroid_score * (5 / 10) + harmonic_score * (5 / 10)) 30 100)
  let pitch_range := analysis.pitch_max_hz.getD 200 - analysis.pitch_min_hz.getD 100
  let range_score := clip (pitch_range / 150 * 100) 0 100
  let dynamic_score := clip (dynamic_range / 40 * 100) 0 100
  let expressiveness := pytrunc (clip (range_score * (6 / 10) + dynamic_score * (4 / 10)) 25 100)
  let listenability := pytrunc (clip
    ((clarity : ℚ) * (30 / 100) + (stability : ℚ) * (25 / 100) +
     (warmth : ℚ) * (20 / 100) + (expressiveness : ℚ) * (25 / 100)) 30 100)
  let overall := pytrunc (clip
    ((clarity : ℚ) * (25 / 100) + (stability : ℚ) * (20 / 100) +
     (warmth : ℚ) * (20 / 100) + (expressiveness : ℚ) * (15 / 100) +
     (listenability : ℚ) * (20 / 100)) 30 100)
  { clarity := boost (clarity : ℚ)
    stability := boost (stability : ℚ)
    warmth := boost (warmth : ℚ)
    expressiveness := boost (expressiveness : ℚ)
    listenability := boost (listenability : ℚ)
    overall := boost (overall : ℚ) }

/-- The pre-truncation (real-valued, clamped) clarity intermediate of
`compute_scores`. -/
def clarity_real (snr spectral_flatness : ℚ) : ℚ :=
  clip (clip (snr / 40 * 100) 0 100 * (6 / 10) +
        clip ((1 - spectral_flatness * 10) * 100) 0 100 * (4 / 10)) 30 100

/-- The integer clarity sub-score of `compute_scores`. -/
def clarity_sub (snr spectral_flatness : ℚ) : ℤ :=
  pytrunc (clarity_real snr spectral_flatness)

/-- The pre-truncation stability intermediate of `compute_scores`. -/
def stability_real (jitter shimmer : ℚ) : ℚ :=
  clip (clip ((1 - jitter / 3) * 100) 0 100 * (5 / 10) +
        clip ((1 - shimmer / 10) * 100) 0 100 * (5 / 10)) 25 100

/-- The integer stability sub-score of `compute_scores`. -/
def stability_sub (jitter shimmer : ℚ) : ℤ :=
  pytrunc (stability_real jitter shimmer)

/-- The pre-truncation warmth intermediate of `compute_scores`. -/
def warmth_real (spectral_centroid harmonic_ratio : ℚ) : ℚ :=
  clip (clip ((1 - |spectral_centroid - 2000| / 3000) * 100) 0 100 * (5 / 10) +
        clip (harmonic_ratio / 25 * 100) 0 100 * (5 / 10)) 30 100

/-- The integer warmth sub-score of `compute_scores`. -/
def warmth_sub (spectral_centroid harmonic_ratio : ℚ) : ℤ :=
  pytrunc (warmth_real spectral_centroid harmonic_ratio)

/-- The pre-truncation expressiveness intermediate of `compute_scores`. -/
def expressiveness_real (pitch_range dynamic_range : ℚ) : ℚ :=
  clip (clip (pitch_range / 150 * 100) 0 100 * (6 / 10) +
        clip (dynamic_range / 40 * 100) 0 100 * (4 / 10)) 25 100

/-- The integer expressiveness sub-score of `compute_scores`. -/
def expressiveness_sub (pitch_range dynamic_range : ℚ) : ℤ :=
  pytrunc (expressiveness_real pitch_range dynamic_range)

/-- The integer listenability of `compute_scores`, as a function of the four
integer sub-scores it combines. -/
def listenability_sub (c s w e : ℤ) : ℤ :=
  pytrunc (clip
    ((c : ℚ) * (30 / 100) + (s : ℚ) * (25 / 100) +
     (w : ℚ) * (20 / 100) + (e : ℚ) * (25 / 100)) 30 100)

/-- A hypothetical listenability computed from the pre-truncation real-valued
intermediates instead of the integer sub-scores (not what the code does). -/
def listenability_from_reals (c s w e : ℚ) : ℤ :=
  pytrunc (clip
    (c * (30 / 100) + s * (25 / 100) + w * (20 / 100) + e * (25 / 100)) 30 100)

/-- The integer overall of `compute_scores`, as a function of the five integer
scores it combines. -/
def overall_sub (c s w e l : ℤ) : ℤ :=
  pytrunc (clip
    ((c : ℚ) * (25 / 100) + (s : ℚ) * (20 / 100) + (w : ℚ) * (20 / 100) +
     (e : ℚ) * (15 / 100) + (l : ℚ) * (20 / 100)) 30 100)

/-- `np.sum(x ** 2)` over a signal. -/
def sumSquares (l : List ℚ) : ℚ := (l.map (fun x => x * x)).sum

/-- `compute_harmonic_ratio` (`voice_analysis.py:144-157`).  The
harmonic/percussive separation `librosa.effects.hpss(audio)` is an external
library call, so its two output signals are taken as arguments here, as is
`np.log10`. -/
def compute_harmonic_ratio (log10 : ℚ → ℚ) (harmonic percussive : List ℚ) : ℚ :=
  let h_energy := sumSquares harmonic
  let p_energy := sumSquares percussive
  if p_energy ≤ 0 then 30
  else clip (10 * log10 (h_energy / p_energy)) 0 40

/-- `np.mean` of a list (callers below never reach it on an empty list). -/
def mean (l : List ℚ) : ℚ := l.sum / (l.length : ℚ)

/-- `np.percentile(l, q)` with numpy's default linear interpolation:
virtual index `q/100·(n-1)`, linearly interpolated between the two nearest
order statistics.  The empty case is unreachable in `compute_snr` (guarded by
`np.any(frames > 0)`). -/
def np_percentile (l : List ℚ) (q : ℚ) : ℚ :=
  let s := l.mergeSort (fun a b => decide (a ≤ b))
  if s.length = 0 then 0
  else
    let pos := q / 100 * ((s.length : ℚ) - 1)
    let i := (⌊pos⌋).toNat
    let lo := s.getD i 0
    let hi := s.getD (i + 1) lo
    lo + (pos - (⌊pos⌋ : ℚ)) * (hi - lo)

/-- Frame start offsets `range(0, len(audio) - frame_length, hop_length)`.
Python's `range` requires a positive step; in `compute_snr` the step is
`int(0.010 * sr)`, positive whenever `100 ≤ sr` (the pipeline always calls it
with `sr = 16000`). -/
def frame_starts (n frameLength hop : ℕ) : List ℕ :=
  (List.range ((n - frameLength + hop - 1) / hop)).map (fun k => k * hop)

/-- The per-frame energies `np.sum(frame ** 2) / frame_length` of
`compute_snr` (`voice_analysis.py:104-108`). -/
def frame_energies (audio : List ℚ) (frameLength hop : ℕ) : List ℚ :=
  (frame_starts audio.length frameLength hop).map
    (fun i => sumSquares ((audio.drop i).take frameLength) / (frameLength : ℚ))

/-- The non-degenerate tail of `compute_snr` (`voice_analysis.py:113-123`):
threshold at the 15th percentile of the positive frame energies, split the
frames into speech and noise buckets, and clamp `10·log10` of the energy
quotient to `[0, 60]`.  The float literal `1e-10` becomes the exact
`1 / 10 ^ 10`. -/
def snr_from_frames (log10 : ℚ → ℚ) (frames : List ℚ) : ℚ :=
  let threshold := if frames.any (fun e => decide (0 < e)) then
    np_percentile (frames.filter (fun e => decide (0 < e))) 15 else 0
  let speech_energy := if frames.any (fun e => decide (threshold < e)) then
    mean (frames.filter (fun e => decide (threshold < e))) else 1 / 10 ^ 10
  let noise_energy₀ := if frames.any (fun e => decide (e ≤ threshold)) then
    mean (frames.filter (fun e => decide (e ≤ threshold))) else 1 / 10 ^ 10
  let noise_energy := if noise_energy₀ ≤ 0 then 1 / 10 ^ 10 else noise_energy₀
  clip (10 * log10 (speech_energy / noise_energy)) 0 60

/-- `compute_snr` (`voice_analysis.py:94-123`); `int(0.025 * sr)` and
`int(0.010 * sr)` become the exact `sr / 40` and `sr / 100` (natural-number
division), and `np.log10` is an argument. -/
def compute_snr (log10 : ℚ → ℚ) (audio : List ℚ) (sr : ℕ) : ℚ :=
  let frame_length := sr / 40
  let hop_length := sr / 100
  let frames := frame_energies audio frame_length hop_length
  if frames = [] then 0
  else snr_from_frames log10 frames

/-- The body of the `/analyze` request (`AnalyzeRequest`); the payload string
is modelled as its character list. -/
structure AnalyzeRequest where
  audio_base64 : List Char
  sample_rate : Option ℕ

/-- The validation prefix of the `/analyze` handler
(`voice_analysis.py:404-412`): empty payload and oversize payload are
rejected with HTTP 400 before anything else runs.  Everything from
`_decode_audio` on is abstracted as `pipeline` (it may itself fail with an
HTTP error). -/
def analyze {α : Type} (pipeline : List Char → Except (ℕ × String) α)
    (req : AnalyzeRequest) : Except (ℕ × String) α :=
  if req.audio_base64 = [] then Except.error (400, "audio_base64 is required")
  else if 10000000 < req.audio_base64.length then
    Except.error (400, "Audio sample too large (max 10MB)")
  else pipeline req.audio_base64

lemma le_clip (x : ℚ) {lo hi : ℚ} (h : lo ≤ hi) : lo ≤ clip x lo hi :=
  le_min (le_max_right _ _) h

lemma clip_le (x lo hi : ℚ) : clip x lo hi ≤ hi := min_le_right _ _

lemma clip_mono (lo hi : ℚ) {x y : ℚ} (h : x ≤ y) : clip x lo hi ≤ clip y lo hi :=
  min_le_min (max_le_max h le_rfl) le_rfl

lemma clip_of_le {x lo : ℚ} (hi : ℚ) (h : x ≤ lo) (hlh : lo ≤ hi) : clip x lo hi = lo := by
  unfold clip
  rw [max_eq_right h, min_eq_left hlh]

lemma clip_of_ge {x hi : ℚ} (lo : ℚ) (h : hi ≤ x) : clip x lo hi = hi := by
  unfold clip
  exact min_eq_right (le_trans h (le_max_left _ _))

lemma pytrunc_of_nonneg {q : ℚ} (h : 0 ≤ q) : pytrunc q = ⌊q⌋ := by
  unfold pytrunc
  rw [if_neg (not_lt.mpr h)]

lemma le_pytrunc {n : ℤ} {q : ℚ} (h0 : 0 ≤ q) (h : (n : ℚ) ≤ q) : n ≤ pytrunc q := by
  rw [pytrunc_of_nonneg h0]
  exact Int.le_floor.mpr h

lemma pytrunc_le {m : ℤ} {q : ℚ} (h0 : 0 ≤ q) (h : q ≤ (m : ℚ)) : pytrunc q ≤ m := by
  rw [pytrunc_of_nonneg h0]
  calc ⌊q⌋ ≤ ⌊(m : ℚ)⌋ := Int.floor_le_floor h
    _ = m := Int.floor_intCast m

lemma pytrunc_mono {x y : ℚ} (h0 : 0 ≤ x) (h : x ≤ y) : pytrunc x ≤ pytrunc y := by
  rw [pytrunc_of_nonneg h0, pytrunc_of_nonneg (le_trans h0 h)]
  exact Int.floor_le_floor h

/-- Every boosted score lies in `[55, 100]`, whatever the raw input. -/
lemma boost_bounds (s : ℚ) : 55 ≤ boost s ∧ boost s ≤ 100 := by
  have h55 : (55 : ℚ) ≤ clip (55 + (s - 30) * (45 / 70)) 55 100 := le_clip _ (by norm_num)
  have h100 : clip (55 + (s - 30) * (45 / 70)) 55 100 ≤ 100 := clip_le _ _ _
  have h0 : (0 : ℚ) ≤ clip (55 + (s - 30) * (45 / 70)) 55 100 := le_trans (by norm_num) h55
  exact ⟨le_pytrunc h0 (by exact_mod_cast h55), pytrunc_le h0 (by exact_mod_cast h100)⟩

/-- C2: the boost remap equals `clamp(55 + (raw-30)·45/70, 55, 100)` truncated to an
integer; `boost 30 = 55`, `boost 100 = 100`, `boost 65 = 77`; every raw value below 30
maps to 55 and every raw value at or above 100 maps to 100. -/
theorem boost_remap_spec (raw : ℚ) :
    boost raw = pytrunc (clip (55 + (raw - 30) * (45 / 70)) 55 100) ∧
    boost 30 = 55 ∧ boost 100 = 100 ∧ boost 65 = 77 ∧
    (raw < 30 → boost raw = 55) ∧
    (100 ≤ raw → boost raw = 100) := by
  refine ⟨rfl, by norm_num [boost, clip, pytrunc], by norm_num [boost, clip, pytrunc],
    by norm_num [boost, clip, pytrunc], ?_, ?_⟩
  · intro h
    have hv : 55 + (raw - 30) * (45 / 70) ≤ 55 := by nlinarith
    unfold boost
    rw [clip_of_le 100 hv (by norm_num)]
    norm_num [pytrunc]
  · intro h
    have hv : (100 : ℚ) ≤ 55 + (raw - 30) * (45 / 70) := by nlinarith
    unfold boost
    rw [clip_of_ge 55 hv]
    norm_num [pytrunc]

theorem boost_remap_spec_witness :
    boost 20 = 55 ∧ boost 120 = 100 :=
  ⟨(boost_remap_spec 20).2.2.2.2.1 (by norm_num),
   (boost_remap_spec 120).2.2.2.2.2 (by norm_num)⟩

/-- C3: the boost remap is monotonic: for raw scores `b < a`,
`boost b ≤ boost a`. -/
theorem boost_monotone (a b : ℚ) (h : b < a) : boost b ≤ boost a := by
  have hinner : 55 + (b - 30) * (45 / 70) ≤ 55 + (a - 30) * (45 / 70) := by nlinarith
  have hclip := clip_mono 55 100 hinner
  have h0 : (0 : ℚ) ≤ clip (55 + (b - 30) * (45 / 70)) 55 100 :=
    le_trans (by norm_num) (le_clip _ (by norm_num))
  exact pytrunc_mono h0 hclip

theorem boost_monotone_witness : boost 20 ≤ boost 90 :=
  boost_monotone 90 20 (by norm_num)

/-- C4: the complete branch structure of `classify_voice_type`, including the
boundary behaviour at 165.0 (male branch, tenor) and 165.01 (female branch,
contralto). -/
theorem classify_voice_type_spec (p : ℚ) (r : ℚ × ℚ) :
    (p ≤ 0 → classify_voice_type p r = "unknown") ∧
    (250 < p → classify_voice_type p r = "soprano") ∧
    (200 < p → p ≤ 250 → classify_voice_type p r = "mezzo-soprano") ∧
    (165 < p → p ≤ 200 → classify_voice_type p r = "contralto") ∧
    (140 < p → p ≤ 165 → classify_voice_type p r = "tenor") ∧
    (0 < p → 100 < p → p ≤ 140 → classify_voice_type p r = "baritone") ∧
    (0 < p → p ≤ 100 → classify_voice_type p r = "bass") ∧
    classify_voice_type 165 r = "tenor" ∧
    classify_voice_type (16501 / 100) r = "contralto" := by
  refine ⟨?_, ?_, ?_, ?_, ?_, ?_, ?_, ?_, ?_⟩ <;>
    · intros
      simp only [classify_voice_type]
      split_ifs <;> first | rfl | norm_num at * <;> linarith

theorem classify_voice_type_spec_witness :
    classify_voice_type 165 (0, 0) = "tenor" ∧
    classify_voice_type (16501 / 100) (0, 0) = "contralto" ∧
    classify_voice_type 0 (0, 0) = "unknown" :=
  ⟨(classify_voice_type_spec 165 (0, 0)).2.2.2.2.1 (by norm_num) (by norm_num),
   (classify_voice_type_spec (16501 / 100) (0, 0)).2.2.2.1 (by norm_num) (by norm_num),
   (classify_voice_type_spec 0 (0, 0)).1 (by norm_num)⟩

/-- C5 counterexample: at `pitch_mean_hz = 440` (inside 440 ± 5 Hz) the
classifier returns "soprano", not "tenor" or "mezzo-soprano". -/
theorem sine440_voice_type_counterexample :
    ((435 : ℚ) ≤ 440 ∧ (440 : ℚ) ≤ 445) ∧
    classify_voice_type 440 (0, 0) = "soprano" ∧
    ¬(classify_voice_type 440 (0, 0) = "tenor" ∨
      classify_voice_type 440 (0, 0) = "mezzo-soprano") := by
  refine ⟨⟨by norm_num, by norm_num⟩, ?_, ?_⟩ <;>
    · norm_num [classify_voice_type]
      try exact ⟨by decide, by decide⟩

/-- C5 amended: for every `pitch_mean_hz` within 440 ± 5 Hz,
`classify_voice_type` returns "soprano". -/
theorem sine440_voice_type (p : ℚ) (r : ℚ × ℚ) (h1 : 435 ≤ p) (h2 : p ≤ 445) :
    classify_voice_type p r = "soprano" := by
  simp only [classify_voice_type]
  split_ifs <;> first | rfl | norm_num at * <;> linarith

theorem sine440_voice_type_witness : classify_voice_type 440 (0, 0) = "soprano" :=
  sine440_voice_type 440 (0, 0) (by norm_num) (by norm_num)

/-- C10: `classify_voice_type` never reads its `pitch_range` argument, and its
result is always one of the seven fixed labels. -/
theorem classify_voice_type_range_independent (p : ℚ) (r₁ r₂ : ℚ × ℚ) :
    classify_voice_type p r₁ = classify_voice_type p r₂ ∧
    classify_voice_type p r₁ ∈
      ["soprano", "mezzo-soprano", "contralto", "tenor", "baritone", "bass", "unknown"] := by
  constructor
  · rfl
  · simp only [classify_voice_type]
    split_ifs <;> simp

/-- C1: for every measurement input, all six fields of the ScoreVector produced
by `compute_scores` are integers in `[55, 100]`. -/
theorem compute_scores_in_range (a : AnalysisDict)
    (snr spectral_flatness spectral_centroid harmonic_ratio dynamic_range : ℚ) :
    (55 ≤ (compute_scores a snr spectral_flatness spectral_centroid harmonic_ratio
        dynamic_range).clarity ∧
      (compute_scores a snr spectral_flatness spectral_centroid harmonic_ratio
        dynamic_range).clarity ≤ 100) ∧
    (55 ≤ (compute_scores a snr spectral_flatness spectral_centroid harmonic_ratio
        dynamic_range).stability ∧
      (compute_scores a snr spectral_flatness spectral_centroid harmonic_ratio
        dynamic_range).stability ≤ 100) ∧
    (55 ≤ (compute_scores a snr spectral_flatness spectral_centroid harmonic_ratio
        dynamic_range).warmth ∧
      (compute_scores a snr spectral_flatness spectral_centroid harmonic_ratio
        dynamic_range).warmth ≤ 100) ∧
    (55 ≤ (compute_scores a snr spectral_flatness spectral_centroid harmonic_ratio
        dynamic_range).expressiveness ∧
      (compute_scores a snr spectral_flatness spectral_centroid harmonic_ratio
        dynamic_range).expressiveness ≤ 100) ∧
    (55 ≤ (compute_scores a snr spectral_flatness spectral_centroid harmonic_ratio
        dynamic_range).listenability ∧
      (compute_scores a snr spectral_flatness spectral_centroid harmonic_ratio
        dynamic_range).listenability ≤ 100) ∧
    (55 ≤ (compute_scores a snr spectral_flatness spectral_centroid harmonic_ratio
        dynamic_range).overall ∧
      (compute_scores a snr spectral_flatness spectral_centroid harmonic_ratio
        dynamic_range).overall ≤ 100) :=
  ⟨boost_bounds _, boost_bounds _, boost_bounds _,
   boost_bounds _, boost_bounds _, boost_bounds _⟩

/-- C9: inside `compute_scores`, listenability is the clamped weighted sum of
the already-truncated integer sub-scores, and overall likewise combines the
integer sub-scores and the integer listenability; at a concrete input the
integer path and the pre-truncation real-valued path genuinely differ
(49 vs 50). -/
theorem compute_scores_truncation (a : AnalysisDict)
    (snr spectral_flatness spectral_centroid harmonic_ratio dynamic_range : ℚ) :
    (compute_scores a snr spectral_flatness spectral_centroid harmonic_ratio
        dynamic_range).listenability =
      boost ((listenability_sub
        (clarity_sub snr spectral_flatness)
        (stability_sub (a.jitter_percent.getD 2) (a.shimmer_percent.getD 5))
        (warmth_sub spectral_centroid harmonic_ratio)
        (expressiveness_sub (a.pitch_max_hz.getD 200 - a.pitch_min_hz.getD 100)
          dynamic_range) : ℤ) : ℚ) ∧
    (compute_scores a snr spectral_flatness spectral_centroid harmonic_ratio
        dynamic_range).overall =
      boost ((overall_sub
        (clarity_sub snr spectral_flatness)
        (stability_sub (a.jitter_percent.getD 2) (a.shimmer_percent.getD 5))
        (warmth_sub spectral_centroid harmonic_ratio)
        (expressiveness_sub (a.pitch_max_hz.getD 200 - a.pitch_min_hz.getD 100)
          dynamic_range)
        (listenability_sub
          (clarity_sub snr spectral_flatness)
          (stability_sub (a.jitter_percent.getD 2) (a.shimmer_percent.getD 5))
          (warmth_sub spectral_centroid harmonic_ratio)
          (expressiveness_sub (a.pitch_max_hz.getD 200 - a.pitch_min_hz.getD 100)
            dynamic_range)) : ℤ) : ℚ) ∧
    listenability_sub (clarity_sub 33 1) (stability_sub 0 (99 / 10))
      (warmth_sub 2000 (1 / 4)) (expressiveness_sub (505 / 4) 0) = 49 ∧
    listenability_from_reals (clarity_real 33 1) (stability_real 0 (99 / 10))
      (warmth_real 2000 (1 / 4)) (expressiveness_real (505 / 4) 0) = 50 := by
  refine ⟨rfl, rfl, ?_, ?_⟩
  · norm_num [listenability_sub, clarity_sub, stability_sub, warmth_sub,
      expressiveness_sub, clarity_real, stability_real, warmth_real,
      expressiveness_real, clip, pytrunc]
  · norm_num [listenability_from_reals, clarity_real, stability_real,
      warmth_real, expressiveness_real, clip, pytrunc]

/-- C6: the harmonic ratio is the fixed ceiling 30.0 whenever the percussive
energy is ≤ 0, and otherwise the clamped `10·log10` of the energy quotient,
whose denominator is then nonzero. -/
theorem compute_harmonic_ratio_spec (log10 : ℚ → ℚ) (harmonic percussive : List ℚ) :
    (sumSquares percussive ≤ 0 → compute_harmonic_ratio log10 harmonic percussive = 30) ∧
    (0 < sumSquares percussive →
      compute_harmonic_ratio log10 harmonic percussive =
        clip (10 * log10 (sumSquares harmonic / sumSquares percussive)) 0 40 ∧
      0 ≤ compute_harmonic_ratio log10 harmonic percussive ∧
      compute_harmonic_ratio log10 harmonic percussive ≤ 40 ∧
      sumSquares percussive ≠ 0) := by
  constructor
  · intro h
    simp only [compute_harmonic_ratio]
    rw [if_pos h]
  · intro h
    simp only [compute_harmonic_ratio]
    rw [if_neg (not_le.mpr h)]
    exact ⟨rfl, le_clip _ (by norm_num), clip_le _ _ _, ne_of_gt h⟩

theorem compute_harmonic_ratio_spec_witness :
    compute_harmonic_ratio (fun _ => 0) [1] [0] = 30 ∧
    (0 : ℚ) ≤ compute_harmonic_ratio (fun _ => 99) [1] [1] :=
  ⟨(compute_harmonic_ratio_spec (fun _ => 0) [1] [0]).1 (by norm_num [sumSquares]),
   ((compute_harmonic_ratio_spec (fun _ => 99) [1] [1]).2 (by norm_num [sumSquares])).2.1⟩

lemma frame_energies_eq_nil {audio : List ℚ} {frameLength hop : ℕ}
    (h : audio.length ≤ frameLength) : frame_energies audio frameLength hop = [] := by
  unfold frame_energies frame_starts
  rw [Nat.sub_eq_zero_of_le h]
  have hcount : (0 + hop - 1) / hop = 0 := by
    cases hop with
    | zero => rfl
    | succ n =>
      rw [Nat.zero_add, Nat.succ_sub_one]
      exact Nat.div_eq_of_lt (Nat.lt_succ_self n)
  rw [hcount]
  rfl

lemma snr_from_frames_bounds (log10 : ℚ → ℚ) (frames : List ℚ) :
    0 ≤ snr_from_frames log10 frames ∧ snr_from_frames log10 frames ≤ 60 :=
  ⟨le_clip _ (by norm_num), clip_le _ _ _⟩

lemma snr_from_frames_zero (log10 : ℚ → ℚ) (frames : List ℚ) (hne : frames ≠ [])
    (hz : ∀ e ∈ frames, e = 0) (hlog : log10 1 = 0) :
    snr_from_frames log10 frames = 0 := by
  have hany0 : frames.any (fun e => decide (0 < e)) = false := by
    rw [List.any_eq_false]
    intro x hx
    simp [hz x hx]
  have hanyle : frames.any (fun e => decide (e ≤ (0 : ℚ))) = true := by
    rw [List.any_eq_true]
    obtain ⟨x, hx⟩ := List.exists_mem_of_ne_nil frames hne
    exact ⟨x, hx, by simp [hz x hx]⟩
  have hfilter : frames.filter (fun e => decide (e ≤ (0 : ℚ))) = frames :=
    List.filter_eq_self.mpr (fun a ha => by simp [hz a ha])
  have hmean : mean frames = 0 := by
    simp [mean, List.sum_eq_zero hz]
  have h1 : snr_from_frames log10 frames
      = clip (10 * log10 ((1 / 10 ^ 10) / (1 / 10 ^ 10))) 0 60 := by
    simp only [snr_from_frames, hany0, Bool.false_eq_true, if_false,
      hanyle, if_true, hfilter, hmean, le_refl]
  rw [h1, div_self (by norm_num : (1 / 10 ^ 10 : ℚ) ≠ 0), hlog]
  norm_num [clip]

/-- C7: `compute_snr` is total whenever Python's `range` step is positive
(`100 ≤ sr`; the pipeline uses 16000): its value always lies in `[0, 60]`, and
it is exactly 0 both when the signal yields no frames and when every frame
energy is zero. -/
theorem compute_snr_spec (log10 : ℚ → ℚ) (audio : List ℚ) (sr : ℕ)
    (hsr : 100 ≤ sr) (hlog : log10 1 = 0) :
    (0 ≤ compute_snr log10 audio sr ∧ compute_snr log10 audio sr ≤ 60) ∧
    (audio.length ≤ sr / 40 → compute_snr log10 audio sr = 0) ∧
    ((∀ e ∈ frame_energies audio (sr / 40) (sr / 100), e = 0) →
      compute_snr log10 audio sr = 0) := by
  by_cases hF : frame_energies audio (sr / 40) (sr / 100) = []
  · have h0 : compute_snr log10 audio sr = 0 := by
      simp only [compute_snr]
      rw [if_pos hF]
    rw [h0]
    norm_num
  · have hmain : compute_snr log10 audio sr
        = snr_from_frames log10 (frame_energies audio (sr / 40) (sr / 100)) := by
      simp only [compute_snr]
      rw [if_neg hF]
    refine ⟨by rw [hmain]; exact snr_from_frames_bounds _ _, ?_, ?_⟩
    · intro hlen
      exact absurd (frame_energies_eq_nil hlen) hF
    · intro hz
      rw [hmain]
      exact snr_from_frames_zero _ _ hF hz hlog

theorem compute_snr_spec_witness :
    compute_snr (fun _ => 0) [] 16000 = 0 ∧
    compute_snr (fun _ => 0) [0, 0, 0] 100 = 0 :=
  ⟨(compute_snr_spec (fun _ => 0) [] 16000 (by norm_num) rfl).2.1 (by decide),
   (compute_snr_spec (fun _ => 0) [0, 0, 0] 100 (by norm_num) rfl).2.2 (by
      norm_num [frame_energies, frame_starts, sumSquares])⟩

/-- C8: the `/analyze` handler rejects an empty payload and an oversize
payload (> 10,000,000 characters) with HTTP 400, and in both cases the result
does not depend on the rest of the pipeline (no decode or analysis step
runs). -/
theorem analyze_rejects_invalid (α : Type)
    (p₁ p₂ : List Char → Except (ℕ × String) α) (req : AnalyzeRequest) :
    (req.audio_base64 = [] →
      analyze p₁ req = Except.error (400, "audio_base64 is required")) ∧
    (10000000 < req.audio_base64.length →
      analyze p₁ req = Except.error (400, "Audio sample too large (max 10MB)")) ∧
    ((req.audio_base64 = [] ∨ 10000000 < req.audio_base64.length) →
      analyze p₁ req = analyze p₂ req) := by
  refine ⟨?_, ?_, ?_⟩
  · intro h
    simp [analyze, h]
  · intro h
    have hne : req.audio_base64 ≠ [] := by
      intro he
      rw [he] at h
      simp at h
    simp [analyze, hne, h]
  · rintro (h | h)
    · simp [analyze, h]
    · have hne : req.audio_base64 ≠ [] := by
        intro he
        rw [he] at h
        simp at h
      simp [analyze, hne, h]

theorem analyze_rejects_invalid_witness :
    analyze (fun _ => Except.ok (0 : ℕ)) ⟨[], none⟩
        = Except.error (400, "audio_base64 is required") ∧
    analyze (fun _ => Except.ok (0 : ℕ)) ⟨List.replicate 10000001 'a', none⟩
        = Except.error (400, "Audio sample too large (max 10MB)") :=
  ⟨(analyze_rejects_invalid ℕ (fun _ => Except.ok 0) (fun _ => Except.ok 0)
      ⟨[], none⟩).1 rfl,
   (analyze_rejects_invalid ℕ (fun _ => Except.ok 0) (fun _ => Except.ok 0)
      ⟨List.replicate 10000001 'a', none⟩).2.1
     (by rw [List.length_replicate]; norm_num)⟩

end VoiceAnalysis
